import Mathlib

set_option synthInstance.maxSize 4000

/-!
Verification development for the beacon-chain aggregate
(src/beacon_chain/chain/src/lib.rs).

The chain aggregate (`BeaconChain`), its constructor (`BeaconChain.new`),
the canonical-head query (`BeaconChain.canonical_block_hash`) and the error
taxonomy (`BeaconChainError`) are embedded from lib.rs.  The two callees
of the constructor, the genesis generator (`genesis_states`) and the
committee map builder (`generate_attester_and_proposer_maps`), live in
modules of the repository that are not among the sources in scope; they
are modelled from the description of those components in the
specification.  `BeaconChain.newWith`
is the constructor parametrised by those two callees, mirroring the source
line by line; `BeaconChain.new` instantiates it with the modelled callees.

Rust `HashMap`s are embedded as association lists with lookup `hfind` and
insertion `hinsert` (the constructor only ever inserts fresh keys into maps
it just created, so cons-insertion is faithful).  `Arc` is embedded as a
value tagged with an allocation identifier: two `Arc`s are identity-equal
exactly when their identifiers coincide, and each `Arc::new` call consumes
a fresh identifier from an allocation counter, so computing a pair at most
once is visible as the counter not advancing.
-/

/-- A 256-bit content identifier, keying all per-fork maps; modelled as a
natural number. -/
abbrev Hash256 := Nat

/-- The zero hash, the key under which genesis state is stored. -/
def Hash256.zero : Hash256 := 0

/-- Modelled from the spec: a validator registration record, an element of
the initial validator sequence of the configuration (the `types` crate that
defines it is not among the sources in scope). -/
structure ValidatorRegistration where
  pubkey : Nat
deriving DecidableEq

/-- Modelled from the spec: one shard/committee grouping of the assignment
table — a shard number together with the ordered list of validator indices
assigned to attest for it (the `types` crate is not among the sources in
scope). -/
structure ShardAndCommittee where
  shard : Nat
  committee : List Nat
deriving DecidableEq

/-- Modelled from the spec: the fast-changing, per-fork portion of consensus
state — recent block history and in-flight attestations (the `types` crate
is not among the sources in scope). -/
structure ActiveState where
  pending_attestations : List Nat
  recent_block_hashes : List Hash256
deriving DecidableEq

/-- Modelled from the spec: the slow-changing, checkpoint portion of
consensus state — validator set, the shard/committee assignment table
indexed by slot, and the last finalized/justified slot markers (the `types`
crate is not among the sources in scope). -/
structure CrystallizedState where
  validators : List ValidatorRegistration
  last_finalized_slot : Nat
  last_justified_slot : Nat
  shard_and_committee_for_slots : List (List ShardAndCommittee)
deriving DecidableEq

/-- Modelled from the spec: immutable configuration snapshot — cycle
length, shard count and the initial validator registrations (the `types`
crate is not among the sources in scope). -/
structure ChainConfig where
  cycle_length : Nat
  shard_count : Nat
  initial_validators : List ValidatorRegistration
deriving DecidableEq

/-- Mapping from (slot, shard) to the ordered list of validator indices
expected to attest, embedded as an association list. -/
abbrev AttesterMap := List ((Nat × Nat) × List Nat)

/-- Mapping from slot to the validator index expected to propose, embedded
as an association list. -/
abbrev ProposerMap := List (Nat × Nat)

/-- Modelled from the spec: the error type of the committee map builder — the
assignment table is malformed because a slot carries no shard/committee
grouping at all, or a referenced committee is empty so no proposer is
available (the `maps` module that defines it is not among the sources in
scope). -/
inductive AttesterAndProposerMapError where
  | NoShardAndCommitteeForSlot
  | NoAvailableProposer
deriving DecidableEq

/-- The public error type of the chain aggregate (lib.rs lines 26–32). -/
inductive BeaconChainError where
  | InvalidGenesis
  | InsufficientValidators
  | UnableToGenerateMaps (cause : AttesterAndProposerMapError)
  | DBError (message : String)
deriving DecidableEq

/-- The `From<AttesterAndProposerMapError> for BeaconChainError` impl
(lib.rs lines 100–104): wraps the error of the builder, preserving it as the
inner cause. -/
def BeaconChainError.ofAttesterAndProposerMapError
    (e : AttesterAndProposerMapError) : BeaconChainError :=
  BeaconChainError.UnableToGenerateMaps e

/-- Opaque persistence handles held by the aggregate (block store,
proof-of-work-chain store, validator store); each handle is modelled as an
identifier, since this scope never invokes them. -/
structure BeaconChainStore where
  block : Nat
  pow_chain : Nat
  validator : Nat
deriving DecidableEq

/-- `Arc<α>`: a shared-ownership handle, embedded as the carried value
tagged with the allocation identifier handed out by the `Arc::new` call
that created it.  Two handles are identity-equal (point to the same
allocation) exactly when their `id` fields coincide. -/
structure Arc (α : Type) where
  id : Nat
  value : α
deriving DecidableEq

/-- Association-list lookup embedding `HashMap::get`. -/
def hfind {α : Type} : List (Hash256 × α) → Hash256 → Option α
  | [], _ => none
  | (k, v) :: rest, h => if k = h then some v else hfind rest h

/-- Association-list insertion embedding `HashMap::insert`; the key shadows
any older binding. -/
def hinsert {α : Type} (m : List (Hash256 × α)) (k : Hash256) (v : α) :
    List (Hash256 × α) :=
  (k, v) :: m

/-- The chain aggregate (lib.rs lines 34–51). -/
structure BeaconChain where
  last_finalized_slot : Nat
  head_block_hashes : List Hash256
  canonical_head_block_hash : Nat
  active_states : List (Hash256 × ActiveState)
  crystallized_states : List (Hash256 × CrystallizedState)
  attester_proposer_maps : List (Hash256 × (Arc AttesterMap × Arc ProposerMap))
  store : BeaconChainStore
  config : ChainConfig
deriving DecidableEq

/-- Modelled from the spec: the genesis generator (`genesis` module, not
among the sources in scope).  Pure function from configuration to the
slot-0 (active, crystallized) state pair; fails with `InvalidGenesis` when
the configuration is internally inconsistent for assignment purposes (a
zero cycle length or zero shard count); otherwise deterministically builds
the assignment table for one cycle from the initial validator set. -/
def genesis_states (config : ChainConfig) :
    Except BeaconChainError (ActiveState × CrystallizedState) :=
  if config.cycle_length = 0 ∨ config.shard_count = 0 then
    Except.error BeaconChainError.InvalidGenesis
  else
    let n := config.initial_validators.length
    let table := (List.range config.cycle_length).map (fun slot =>
      [{ shard := slot % config.shard_count,
         committee := List.range n : ShardAndCommittee }])
    Except.ok
      ({ pending_attestations := [],
         recent_block_hashes := List.replicate config.cycle_length Hash256.zero },
       { validators := config.initial_validators,
         last_finalized_slot := 0,
         last_justified_slot := 0,
         shard_and_committee_for_slots := table })

/-- Modelled from the spec: the committee map builder (`maps` module, not
among the sources in scope).  Walks the assignment table starting at the
given slot; rejects a slot with no shard/committee grouping
(`NoShardAndCommitteeForSlot`) or with an empty committee for a shard it
references (`NoAvailableProposer`); otherwise records the committee of every grouping in the attester map in table order and selects as proposer the
first member of the designated (first) grouping of the slot. -/
def generate_attester_and_proposer_maps :
    List (List ShardAndCommittee) → Nat →
    Except AttesterAndProposerMapError (AttesterMap × ProposerMap)
  | [], _ => Except.ok ([], [])
  | row :: rest, slot =>
    match row with
    | [] => Except.error AttesterAndProposerMapError.NoShardAndCommitteeForSlot
    | first :: others =>
      if (first :: others).any (fun sc => sc.committee.isEmpty) then
        Except.error AttesterAndProposerMapError.NoAvailableProposer
      else
        match generate_attester_and_proposer_maps rest (slot + 1) with
        | Except.error e => Except.error e
        | Except.ok (attester_map, proposer_map) =>
          Except.ok
            ((first :: others).map (fun sc => ((slot, sc.shard), sc.committee))
               ++ attester_map,
             (slot, first.committee.headD 0) :: proposer_map)

/-- `BeaconChain::new` (lib.rs lines 57–93), parametrised by its two
callees `genesis_states` (g) and `generate_attester_and_proposer_maps` (m),
which live in modules outside the sources in scope.  The body mirrors the
source line by line: the empty-validator check first, then genesis
derivation, then map generation (whose error is wrapped through the `From`
impl, embedding the `?` operator), then population of the three maps under
the zero hash.  The two `Arc::new` calls receive allocation identifiers 0
and 1 in call order. -/
def BeaconChain.newWith
    (g : ChainConfig → Except BeaconChainError (ActiveState × CrystallizedState))
    (m : List (List ShardAndCommittee) → Nat →
         Except AttesterAndProposerMapError (AttesterMap × ProposerMap))
    (store : BeaconChainStore) (config : ChainConfig) :
    Except BeaconChainError BeaconChain :=
  if config.initial_validators.isEmpty then
    Except.error BeaconChainError.InsufficientValidators
  else
    match g config with
    | Except.error e => Except.error e
    | Except.ok (active_state, crystallized_state) =>
      let canonical_latest_block_hash := Hash256.zero
      let head_block_hashes := [canonical_latest_block_hash]
      let canonical_head_block_hash := 0
      let active_states : List (Hash256 × ActiveState) := []
      let crystallized_states : List (Hash256 × CrystallizedState) := []
      let attester_proposer_maps :
          List (Hash256 × (Arc AttesterMap × Arc ProposerMap)) := []
      match m crystallized_state.shard_and_committee_for_slots 0 with
      | Except.error e =>
        Except.error (BeaconChainError.ofAttesterAndProposerMapError e)
      | Except.ok (attester_map, proposer_map) =>
        Except.ok
          { last_finalized_slot := 0,
            head_block_hashes :=
              head_block_hashes,
            canonical_head_block_hash :=
              canonical_head_block_hash,
            active_states :=
              hinsert active_states canonical_latest_block_hash active_state,
            crystallized_states :=
              hinsert crystallized_states canonical_latest_block_hash
                crystallized_state,
            attester_proposer_maps :=
              hinsert attester_proposer_maps canonical_latest_block_hash
                (Arc.mk 0 attester_map, Arc.mk 1 proposer_map),
            store := store,
            config := config }

/-- `BeaconChain::new` (lib.rs lines 57–93) with its actual callees. -/
def BeaconChain.new (store : BeaconChainStore) (config : ChainConfig) :
    Except BeaconChainError BeaconChain :=
  BeaconChain.newWith genesis_states generate_attester_and_proposer_maps
    store config

/-- `BeaconChain::canonical_block_hash` (lib.rs lines 95–97): the fork-head
sequence entry at the canonical index.  Rust indexing panics out of range;
the embedding returns an `Option`, with `none` standing for the panic. -/
def BeaconChain.canonical_block_hash (c : BeaconChain) : Option Hash256 :=
  c.head_block_hashes[c.canonical_head_block_hash]?

/-- Modelled from the spec: the committee-map cache discipline (the
`block_processing` module that exercises it is not among the sources in
scope).  Requesting the maps for a crystallized state: if the hash of the state
is already a key of the cache, the cached pair is returned unchanged and
nothing is computed or allocated; otherwise the builder runs once, the
resulting pair is wrapped in two fresh allocations and inserted under the
hash.  `alloc` is the allocation counter (next fresh `Arc` identifier);
the result carries the pair, the updated aggregate and the updated
counter. -/
def BeaconChain.attester_proposer_maps_for (chain : BeaconChain)
    (alloc : Nat) (start_slot : Nat) (hsh : Hash256)
    (cs : CrystallizedState) :
    Except BeaconChainError
      ((Arc AttesterMap × Arc ProposerMap) × BeaconChain × Nat) :=
  match hfind chain.attester_proposer_maps hsh with
  | some pair => Except.ok (pair, chain, alloc)
  | none =>
    match generate_attester_and_proposer_maps
        cs.shard_and_committee_for_slots start_slot with
    | Except.error e =>
      Except.error (BeaconChainError.UnableToGenerateMaps e)
    | Except.ok (attester_map, proposer_map) =>
      let pair := (Arc.mk alloc attester_map, Arc.mk (alloc + 1) proposer_map)
      Except.ok
        (pair,
         { chain with
             attester_proposer_maps :=
               hinsert chain.attester_proposer_maps hsh pair },
         alloc + 2)

/-- Allocation discipline of the committee-map cache: every `Arc`
identifier in the cache was handed out before the current value of the
allocation counter, and entries stored under two different hashes never
share an allocation (no cross-hash sharing). -/
def cacheWellFormed (chain : BeaconChain) (alloc : Nat) : Prop :=
  (∀ h pr, hfind chain.attester_proposer_maps h = some pr →
     pr.1.id < alloc ∧ pr.2.id < alloc) ∧
  (∀ h1 h2 p1 p2, hfind chain.attester_proposer_maps h1 = some p1 →
     hfind chain.attester_proposer_maps h2 = some p2 → h1 ≠ h2 →
     p1.1.id ≠ p2.1.id ∧ p1.1.id ≠ p2.2.id ∧
     p1.2.id ≠ p2.1.id ∧ p1.2.id ≠ p2.2.id)

/-- Fallback result used to read a value out of an `Except`. -/
def exceptGetD {ε α : Type} (x : Except ε α) (d : α) : α :=
  match x with
  | Except.ok v => v
  | Except.error _ => d

/-- A concrete store with three handles. -/
def store9 : BeaconChainStore :=
  { block := 0, pow_chain := 0, validator := 0 }

/-- A second concrete store with different handles. -/
def store9b : BeaconChainStore :=
  { block := 1, pow_chain := 2, validator := 3 }

/-- The concrete scenario of the spec: cycle length 4, shard count 4, eight
initial validator registrations. -/
def config9 : ChainConfig :=
  { cycle_length := 4,
    shard_count := 4,
    initial_validators := (List.range 8).map (fun i => { pubkey := i }) }

/-- A configuration with an empty initial validator set. -/
def configEmpty : ChainConfig :=
  { cycle_length := 4, shard_count := 4, initial_validators := [] }

/-- A throwaway aggregate used only as the fallback of `exceptGetD`. -/
def junkChain : BeaconChain :=
  { last_finalized_slot := 0,
    head_block_hashes := [],
    canonical_head_block_hash := 0,
    active_states := [],
    crystallized_states := [],
    attester_proposer_maps := [],
    store := store9,
    config := configEmpty }

/-- The aggregate constructed from `store9` and `config9`. -/
def chain9 : BeaconChain :=
  exceptGetD (BeaconChain.new store9 config9) junkChain

/-- The aggregate constructed from `store9b` and `config9`. -/
def chain9b : BeaconChain :=
  exceptGetD (BeaconChain.new store9b config9) junkChain

/-- An active state with no history, used as a fixture. -/
def activeA : ActiveState :=
  { pending_attestations := [], recent_block_hashes := [] }

/-- A crystallized state whose assignment table has a slot with no
shard/committee grouping at all — the negative scenario of the spec. -/
def crystalBad : CrystallizedState :=
  { validators := [],
    last_finalized_slot := 0,
    last_justified_slot := 0,
    shard_and_committee_for_slots := [[]] }

/-- A genesis callee producing the malformed crystallized state
`crystalBad`, used to exercise the map-generation failure path. -/
def gBad : ChainConfig →
    Except BeaconChainError (ActiveState × CrystallizedState) :=
  fun _ => Except.ok (activeA, crystalBad)

/-- The committee-map pair cached under the zero hash in `chain9`. -/
def pair9 : Arc AttesterMap × Arc ProposerMap :=
  (hfind chain9.attester_proposer_maps Hash256.zero).getD
    (Arc.mk 0 [], Arc.mk 0 [])

/-- The genesis active state produced by `genesis_states` for any
configuration with cycle length 4. -/
def activeG : ActiveState :=
  { pending_attestations := [],
    recent_block_hashes := List.replicate 4 Hash256.zero }

/-- The genesis crystallized state produced by `genesis_states` for a
configuration with cycle length 4, shard count 4 and eight validator
registrations `vs`. -/
def crystalG (vs : List ValidatorRegistration) : CrystallizedState :=
  { validators := vs,
    last_finalized_slot := 0,
    last_justified_slot := 0,
    shard_and_committee_for_slots :=
      (List.range 4).map (fun slot =>
        [{ shard := slot % 4, committee := List.range 8 : ShardAndCommittee }]) }

example : BeaconChain.new store9 config9 = Except.ok chain9 := rfl
example : chain9.head_block_hashes = [Hash256.zero] := by decide
example : (hfind chain9.attester_proposer_maps Hash256.zero).isSome = true := by
  decide

/-- Elimination principle for a successful construction: `newWith`
returns `ok` exactly when the validator set is non-empty and both callees
succeed, and then the aggregate is the fully-populated genesis literal. -/
theorem newWith_ok
    {g : ChainConfig → Except BeaconChainError (ActiveState × CrystallizedState)}
    {m : List (List ShardAndCommittee) → Nat →
         Except AttesterAndProposerMapError (AttesterMap × ProposerMap)}
    {store : BeaconChainStore} {config : ChainConfig} {chain : BeaconChain}
    (h : BeaconChain.newWith g m store config = Except.ok chain) :
    ∃ a c am pm,
      config.initial_validators.isEmpty = false ∧
      g config = Except.ok (a, c) ∧
      m c.shard_and_committee_for_slots 0 = Except.ok (am, pm) ∧
      chain =
        { last_finalized_slot := 0,
          head_block_hashes := [Hash256.zero],
          canonical_head_block_hash := 0,
          active_states := [(Hash256.zero, a)],
          crystallized_states := [(Hash256.zero, c)],
          attester_proposer_maps :=
            [(Hash256.zero, (Arc.mk 0 am, Arc.mk 1 pm))],
          store := store,
          config := config } := by
  cases hival : config.initial_validators.isEmpty with
  | true => simp [BeaconChain.newWith, hival] at h
  | false =>
    cases hg : g config with
    | error e => simp [BeaconChain.newWith, hival, hg] at h
    | ok p =>
      obtain ⟨a, c⟩ := p
      cases hm : m c.shard_and_committee_for_slots 0 with
      | error e => simp [BeaconChain.newWith, hival, hg, hm] at h
      | ok q =>
        obtain ⟨am, pm⟩ := q
        refine ⟨a, c, am, pm, rfl, rfl, hm, ?_⟩
        simp [BeaconChain.newWith, hival, hg, hm, hinsert] at h
        exact h.symm

/-- C1: for every store and configuration for which `BeaconChain::new`
succeeds, the aggregate has fork-head sequence `[zero hash]`, canonical
index 0, `last_finalized_slot` 0, the zero hash as a key of all three
maps, and every hash of the fork-head sequence has entries in both state
maps (invariant I1). -/
theorem new_genesis_population (store : BeaconChainStore)
    (config : ChainConfig) (chain : BeaconChain)
    (h : BeaconChain.new store config = Except.ok chain) :
    chain.head_block_hashes = [Hash256.zero] ∧
    chain.canonical_head_block_hash = 0 ∧
    chain.last_finalized_slot = 0 ∧
    (hfind chain.active_states Hash256.zero).isSome = true ∧
    (hfind chain.crystallized_states Hash256.zero).isSome = true ∧
    (hfind chain.attester_proposer_maps Hash256.zero).isSome = true ∧
    (∀ hsh, hsh ∈ chain.head_block_hashes →
       (hfind chain.active_states hsh).isSome = true ∧
       (hfind chain.crystallized_states hsh).isSome = true) := by
  obtain ⟨a, c, am, pm, _, _, _, rfl⟩ := newWith_ok h
  refine ⟨rfl, rfl, rfl, by simp [hfind], by simp [hfind], by simp [hfind], ?_⟩
  intro hsh hmem
  simp only [List.mem_singleton] at hmem
  subst hmem
  exact ⟨by simp [hfind], by simp [hfind]⟩

/-- Witness for C1 at the concrete store `store9` and configuration
`config9`. -/
theorem new_genesis_population_witness :
    chain9.head_block_hashes = [Hash256.zero] ∧
    chain9.canonical_head_block_hash = 0 ∧
    chain9.last_finalized_slot = 0 ∧
    (hfind chain9.active_states Hash256.zero).isSome = true ∧
    (hfind chain9.crystallized_states Hash256.zero).isSome = true ∧
    (hfind chain9.attester_proposer_maps Hash256.zero).isSome = true ∧
    ((hfind chain9.active_states Hash256.zero).isSome = true ∧
     (hfind chain9.crystallized_states Hash256.zero).isSome = true) := by
  have h := new_genesis_population store9 config9 chain9 rfl
  exact ⟨h.1, h.2.1, h.2.2.1, h.2.2.2.1, h.2.2.2.2.1, h.2.2.2.2.2.1,
         h.2.2.2.2.2.2 Hash256.zero (by decide)⟩

/-- C2: for every aggregate produced by a successful `BeaconChain::new`,
the canonical index is a valid index into the fork-head sequence
(invariant I2), `canonical_block_hash` is exactly the sequence entry at
that index, and the call never fails. -/
theorem canonical_block_hash_never_fails (store : BeaconChainStore)
    (config : ChainConfig) (chain : BeaconChain)
    (h : BeaconChain.new store config = Except.ok chain) :
    chain.canonical_head_block_hash < chain.head_block_hashes.length ∧
    chain.canonical_block_hash =
      chain.head_block_hashes[chain.canonical_head_block_hash]? ∧
    chain.canonical_block_hash.isSome = true := by
  obtain ⟨a, c, am, pm, _, _, _, rfl⟩ := newWith_ok h
  exact ⟨Nat.zero_lt_one, rfl, rfl⟩

/-- Witness for C2 at the concrete store `store9` and configuration
`config9`. -/
theorem canonical_block_hash_never_fails_witness :
    chain9.canonical_head_block_hash < chain9.head_block_hashes.length ∧
    chain9.canonical_block_hash =
      chain9.head_block_hashes[chain9.canonical_head_block_hash]? ∧
    chain9.canonical_block_hash.isSome = true :=
  canonical_block_hash_never_fails store9 config9 chain9 rfl

/-- C3: for every configuration with an empty initial validator set,
construction fails with `InsufficientValidators`; the check happens before
any state derivation — the result is the same for arbitrary genesis
generator and map builder callees. -/
theorem new_empty_validators_insufficient
    (g : ChainConfig → Except BeaconChainError (ActiveState × CrystallizedState))
    (m : List (List ShardAndCommittee) → Nat →
         Except AttesterAndProposerMapError (AttesterMap × ProposerMap))
    (store : BeaconChainStore) (config : ChainConfig)
    (h : config.initial_validators = []) :
    BeaconChain.newWith g m store config =
      Except.error BeaconChainError.InsufficientValidators ∧
    BeaconChain.new store config =
      Except.error BeaconChainError.InsufficientValidators := by
  constructor <;> simp [BeaconChain.new, BeaconChain.newWith, h]

/-- Witness for C3 at the concrete configuration `configEmpty`. -/
theorem new_empty_validators_insufficient_witness :
    configEmpty.initial_validators = [] ∧
    BeaconChain.newWith genesis_states generate_attester_and_proposer_maps
      store9 configEmpty =
      Except.error BeaconChainError.InsufficientValidators ∧
    BeaconChain.new store9 configEmpty =
      Except.error BeaconChainError.InsufficientValidators :=
  ⟨rfl,
   new_empty_validators_insufficient genesis_states
     generate_attester_and_proposer_maps store9 configEmpty rfl⟩

/-- C4: construction is all-or-nothing — for every store and
configuration, `BeaconChain::new` either fails with an error and no
aggregate is observable, or succeeds with an aggregate whose three maps
are all populated under the zero hash together. -/
theorem new_all_or_nothing (store : BeaconChainStore)
    (config : ChainConfig) :
    (∃ e, BeaconChain.new store config = Except.error e ∧
       ∀ chain, BeaconChain.new store config ≠ Except.ok chain) ∨
    (∃ chain, BeaconChain.new store config = Except.ok chain ∧
       chain.head_block_hashes = [Hash256.zero] ∧
       (hfind chain.active_states Hash256.zero).isSome = true ∧
       (hfind chain.crystallized_states Hash256.zero).isSome = true ∧
       (hfind chain.attester_proposer_maps Hash256.zero).isSome = true) := by
  cases h : BeaconChain.new store config with
  | error e =>
    refine Or.inl ⟨e, rfl, ?_⟩
    intro chain hc
    exact Except.noConfusion hc
  | ok chain =>
    obtain ⟨a, c, am, pm, _, _, _, rfl⟩ := newWith_ok h
    exact Or.inr ⟨_, rfl, rfl, by simp [hfind], by simp [hfind], by simp [hfind]⟩

/-- Witness for C4 at the concrete store `store9` and configuration
`config9`. -/
theorem new_all_or_nothing_witness :
    (∃ e, BeaconChain.new store9 config9 = Except.error e ∧
       ∀ chain, BeaconChain.new store9 config9 ≠ Except.ok chain) ∨
    (∃ chain, BeaconChain.new store9 config9 = Except.ok chain ∧
       chain.head_block_hashes = [Hash256.zero] ∧
       (hfind chain.active_states Hash256.zero).isSome = true ∧
       (hfind chain.crystallized_states Hash256.zero).isSome = true ∧
       (hfind chain.attester_proposer_maps Hash256.zero).isSome = true) :=
  new_all_or_nothing store9 config9

/-- C5: whenever the committee map builder rejects the genesis
assignment table of the genesis crystallized state, construction fails with
`UnableToGenerateMaps` carrying exactly the error of the builder as inner
cause, and the `From` impl preserves that cause. -/
theorem new_propagates_map_builder_error
    (g : ChainConfig → Except BeaconChainError (ActiveState × CrystallizedState))
    (m : List (List ShardAndCommittee) → Nat →
         Except AttesterAndProposerMapError (AttesterMap × ProposerMap))
    (store : BeaconChainStore) (config : ChainConfig)
    (a : ActiveState) (c : CrystallizedState)
    (e : AttesterAndProposerMapError)
    (hne : config.initial_validators.isEmpty = false)
    (hg : g config = Except.ok (a, c))
    (hm : m c.shard_and_committee_for_slots 0 = Except.error e) :
    BeaconChain.newWith g m store config =
      Except.error (BeaconChainError.UnableToGenerateMaps e) ∧
    BeaconChainError.ofAttesterAndProposerMapError e =
      BeaconChainError.UnableToGenerateMaps e := by
  refine ⟨?_, rfl⟩
  simp [BeaconChain.newWith, hne, hg, hm,
    BeaconChainError.ofAttesterAndProposerMapError]

/-- Witness for C5: a genesis callee producing an assignment table with an
empty slot makes construction fail with the exact error of the builder. -/
theorem new_propagates_map_builder_error_witness :
    config9.initial_validators.isEmpty = false ∧
    BeaconChain.newWith gBad generate_attester_and_proposer_maps store9
        config9 =
      Except.error (BeaconChainError.UnableToGenerateMaps
        AttesterAndProposerMapError.NoShardAndCommitteeForSlot) ∧
    BeaconChainError.ofAttesterAndProposerMapError
        AttesterAndProposerMapError.NoShardAndCommitteeForSlot =
      BeaconChainError.UnableToGenerateMaps
        AttesterAndProposerMapError.NoShardAndCommitteeForSlot :=
  ⟨rfl,
   new_propagates_map_builder_error gBad generate_attester_and_proposer_maps
     store9 config9 activeA crystalBad
     AttesterAndProposerMapError.NoShardAndCommitteeForSlot rfl rfl rfl⟩

/-- C6: genesis derivation is deterministic — equal configurations yield
equal genesis states, whichever stores the two constructions use, both
through the genesis generator directly and through the states the two
aggregates hold under the zero hash. -/
theorem genesis_deterministic (s1 s2 : BeaconChainStore)
    (c1 c2 : ChainConfig) (ch1 ch2 : BeaconChain) (hcfg : c1 = c2)
    (h1 : BeaconChain.new s1 c1 = Except.ok ch1)
    (h2 : BeaconChain.new s2 c2 = Except.ok ch2) :
    genesis_states c1 = genesis_states c2 ∧
    hfind ch1.active_states Hash256.zero =
      hfind ch2.active_states Hash256.zero ∧
    hfind ch1.crystallized_states Hash256.zero =
      hfind ch2.crystallized_states Hash256.zero := by
  subst hcfg
  obtain ⟨a1, c1', am1, pm1, _, hg1, hm1, rfl⟩ := newWith_ok h1
  obtain ⟨a2, c2', am2, pm2, _, hg2, hm2, rfl⟩ := newWith_ok h2
  have hp := hg1.symm.trans hg2
  simp only [Except.ok.injEq, Prod.mk.injEq] at hp
  obtain ⟨rfl, rfl⟩ := hp
  exact ⟨rfl, rfl, rfl⟩

/-- Witness for C6: the same configuration with two different stores. -/
theorem genesis_deterministic_witness :
    genesis_states config9 = genesis_states config9 ∧
    hfind chain9.active_states Hash256.zero =
      hfind chain9b.active_states Hash256.zero ∧
    hfind chain9.crystallized_states Hash256.zero =
      hfind chain9b.crystallized_states Hash256.zero :=
  genesis_deterministic store9 store9b config9 config9 chain9 chain9b rfl
    rfl rfl

/-- C8: the public error type exposes exactly four kinds — and every
failure of the public constructor is one of them. -/
theorem beacon_chain_error_four_kinds :
    (∀ e : BeaconChainError,
       e = BeaconChainError.InsufficientValidators ∨
       e = BeaconChainError.InvalidGenesis ∨
       (∃ cause, e = BeaconChainError.UnableToGenerateMaps cause) ∨
       (∃ message, e = BeaconChainError.DBError message)) ∧
    (∀ store config e, BeaconChain.new store config = Except.error e →
       e = BeaconChainError.InsufficientValidators ∨
       e = BeaconChainError.InvalidGenesis ∨
       (∃ cause, e = BeaconChainError.UnableToGenerateMaps cause) ∨
       (∃ message, e = BeaconChainError.DBError message)) := by
  have hall : ∀ e : BeaconChainError,
      e = BeaconChainError.InsufficientValidators ∨
      e = BeaconChainError.InvalidGenesis ∨
      (∃ cause, e = BeaconChainError.UnableToGenerateMaps cause) ∨
      (∃ message, e = BeaconChainError.DBError message) := by
    intro e
    cases e with
    | InvalidGenesis => exact Or.inr (Or.inl rfl)
    | InsufficientValidators => exact Or.inl rfl
    | UnableToGenerateMaps cause => exact Or.inr (Or.inr (Or.inl ⟨cause, rfl⟩))
    | DBError message => exact Or.inr (Or.inr (Or.inr ⟨message, rfl⟩))
  exact ⟨hall, fun _ _ e _ => hall e⟩

/-- Witness for C8: the error produced by an empty validator set is one of
the four kinds. -/
theorem beacon_chain_error_four_kinds_witness :
    BeaconChainError.InsufficientValidators =
      BeaconChainError.InsufficientValidators ∨
    BeaconChainError.InsufficientValidators =
      BeaconChainError.InvalidGenesis ∨
    (∃ cause, BeaconChainError.InsufficientValidators =
       BeaconChainError.UnableToGenerateMaps cause) ∨
    (∃ message, BeaconChainError.InsufficientValidators =
       BeaconChainError.DBError message) :=
  beacon_chain_error_four_kinds.2 store9 configEmpty
    BeaconChainError.InsufficientValidators rfl

/-- C9: the concrete scenario of the spec — for every store and every
configuration with cycle length 4, shard count 4 and eight validator
registrations, construction succeeds, the finalized slot is 0, the
canonical hash is the zero hash, and the states stored under the zero
hash are exactly those the genesis generator produces directly. -/
theorem new_concrete_scenario (store : BeaconChainStore)
    (config : ChainConfig) (hcyc : config.cycle_length = 4)
    (hshard : config.shard_count = 4)
    (hlen : config.initial_validators.length = 8) :
    ∃ chain, BeaconChain.new store config = Except.ok chain ∧
      chain.last_finalized_slot = 0 ∧
      chain.canonical_block_hash = some Hash256.zero ∧
      hfind chain.active_states Hash256.zero =
        (genesis_states config).toOption.map Prod.fst ∧
      hfind chain.crystallized_states Hash256.zero =
        (genesis_states config).toOption.map Prod.snd := by
  have hival : config.initial_validators.isEmpty = false := by
    cases hv : config.initial_validators with
    | nil => rw [hv] at hlen; simp at hlen
    | cons x xs => rfl
  have hg : genesis_states config =
      Except.ok (activeG, crystalG config.initial_validators) := by
    unfold genesis_states
    rw [hcyc, hshard, hlen]
    rfl
  obtain ⟨mp, hm⟩ : ∃ mp,
      generate_attester_and_proposer_maps
        (crystalG config.initial_validators).shard_and_committee_for_slots 0 =
        Except.ok mp := ⟨_, rfl⟩
  obtain ⟨am, pm⟩ := mp
  refine
    ⟨{ last_finalized_slot := 0,
       head_block_hashes := [Hash256.zero],
       canonical_head_block_hash := 0,
       active_states := [(Hash256.zero, activeG)],
       crystallized_states :=
         [(Hash256.zero, crystalG config.initial_validators)],
       attester_proposer_maps :=
         [(Hash256.zero, (Arc.mk 0 am, Arc.mk 1 pm))],
       store := store,
       config := config }, ?_, rfl, rfl, ?_, ?_⟩
  · simp [BeaconChain.new, BeaconChain.newWith, hival, hg, hm, hinsert]
  · rw [hg]; rfl
  · rw [hg]; rfl

/-- Witness for C9 at the concrete store `store9` and configuration
`config9`. -/
theorem new_concrete_scenario_witness :
    ∃ chain, BeaconChain.new store9 config9 = Except.ok chain ∧
      chain.last_finalized_slot = 0 ∧
      chain.canonical_block_hash = some Hash256.zero ∧
      hfind chain.active_states Hash256.zero =
        (genesis_states config9).toOption.map Prod.fst ∧
      hfind chain.crystallized_states Hash256.zero =
        (genesis_states config9).toOption.map Prod.snd :=
  new_concrete_scenario store9 config9 rfl rfl rfl

/-- C10: after a successful construction the zero hash is not merely
present but the only key — all three maps hold exactly one entry, the
fork-head sequence has length one, and the cached pair is exactly the
output of the builder on the genesis assignment table with starting slot 0. -/
theorem new_maps_singleton (store : BeaconChainStore) (config : ChainConfig)
    (chain : BeaconChain)
    (h : BeaconChain.new store config = Except.ok chain) :
    chain.head_block_hashes.length = 1 ∧
    chain.active_states.map Prod.fst = [Hash256.zero] ∧
    chain.crystallized_states.map Prod.fst = [Hash256.zero] ∧
    chain.attester_proposer_maps.map Prod.fst = [Hash256.zero] ∧
    ∃ cs am pm,
      hfind chain.crystallized_states Hash256.zero = some cs ∧
      generate_attester_and_proposer_maps cs.shard_and_committee_for_slots 0 =
        Except.ok (am, pm) ∧
      hfind chain.attester_proposer_maps Hash256.zero =
        some (Arc.mk 0 am, Arc.mk 1 pm) := by
  obtain ⟨a, c, am, pm, _, hg, hm, rfl⟩ := newWith_ok h
  exact ⟨rfl, rfl, rfl, rfl, c, am, pm, by simp [hfind], hm, by simp [hfind]⟩

/-- Witness for C10 at the concrete store `store9` and configuration
`config9`. -/
theorem new_maps_singleton_witness :
    chain9.head_block_hashes.length = 1 ∧
    chain9.active_states.map Prod.fst = [Hash256.zero] ∧
    chain9.crystallized_states.map Prod.fst = [Hash256.zero] ∧
    chain9.attester_proposer_maps.map Prod.fst = [Hash256.zero] := by
  have h := new_maps_singleton store9 config9 chain9 rfl
  exact ⟨h.1, h.2.1, h.2.2.1, h.2.2.2.1⟩

/-- C7: committee-map caching is idempotent and content-addressed — for a
hash already present in the cache, requesting the maps returns the very
same allocated pair (identity-equal, same allocation identifiers) with no
new computation or allocation (the aggregate and the allocation counter
are returned unchanged); and any successful request preserves the
allocation discipline, under which pairs cached under two different
hashes never share an allocation. -/
theorem committee_map_cache_idempotent (chain : BeaconChain)
    (alloc s : Nat) (hsh : Hash256) (cs : CrystallizedState)
    (hwf : cacheWellFormed chain alloc) :
    (∀ pair, hfind chain.attester_proposer_maps hsh = some pair →
       chain.attester_proposer_maps_for alloc s hsh cs =
         Except.ok (pair, chain, alloc)) ∧
    (∀ pair chain2 alloc2,
       chain.attester_proposer_maps_for alloc s hsh cs =
         Except.ok (pair, chain2, alloc2) →
       cacheWellFormed chain2 alloc2 ∧
       hfind chain2.attester_proposer_maps hsh = some pair) := by
  constructor
  · intro pair hp
    simp [BeaconChain.attester_proposer_maps_for, hp]
  · intro pair chain2 alloc2 hcall
    cases hp : hfind chain.attester_proposer_maps hsh with
    | some p =>
      simp [BeaconChain.attester_proposer_maps_for, hp] at hcall
      obtain ⟨h1, h2, h3⟩ := hcall
      subst h1; subst h2; subst h3
      exact ⟨hwf, hp⟩
    | none =>
      simp [BeaconChain.attester_proposer_maps_for, hp] at hcall
      cases hgen : generate_attester_and_proposer_maps
          cs.shard_and_committee_for_slots s with
      | error e => rw [hgen] at hcall; simp at hcall
      | ok q =>
        obtain ⟨am, pm⟩ := q
        rw [hgen] at hcall
        simp [hinsert] at hcall
        obtain ⟨h1, h2, h3⟩ := hcall
        subst h1; subst h2; subst h3
        refine ⟨⟨?_, ?_⟩, ?_⟩
        · intro h pr hf
          simp only [hfind] at hf
          by_cases heq : hsh = h
          · rw [if_pos heq] at hf
            obtain rfl : (Arc.mk alloc am, Arc.mk (alloc + 1) pm) = pr :=
              Option.some.inj hf
            constructor <;> simp
          · rw [if_neg heq] at hf
            have hb := hwf.1 h pr hf
            omega
        · intro h1 h2 p1 p2 hf1 hf2 hne
          simp only [hfind] at hf1 hf2
          by_cases he1 : hsh = h1 <;> by_cases he2 : hsh = h2
          · exact absurd (he1.symm.trans he2) hne
          · rw [if_pos he1] at hf1
            rw [if_neg he2] at hf2
            obtain rfl : (Arc.mk alloc am, Arc.mk (alloc + 1) pm) = p1 :=
              Option.some.inj hf1
            have hb := hwf.1 h2 p2 hf2
            refine ⟨?_, ?_, ?_, ?_⟩ <;> simp <;> omega
          · rw [if_neg he1] at hf1
            rw [if_pos he2] at hf2
            obtain rfl : (Arc.mk alloc am, Arc.mk (alloc + 1) pm) = p2 :=
              Option.some.inj hf2
            have hb := hwf.1 h1 p1 hf1
            refine ⟨?_, ?_, ?_, ?_⟩ <;> simp <;> omega
          · rw [if_neg he1] at hf1
            rw [if_neg he2] at hf2
            exact hwf.2 h1 h2 p1 p2 hf1 hf2 hne
        · simp [hfind]

/-- Witness for C7: requesting the committee maps of the zero hash from the genesis
aggregate returns the cached pair with aggregate and allocation counter
unchanged. -/
theorem committee_map_cache_idempotent_witness :
    chain9.attester_proposer_maps_for 2 0 Hash256.zero crystalBad =
      Except.ok (pair9, chain9, 2) := by
  have hmap : chain9.attester_proposer_maps = [(Hash256.zero, pair9)] := by
    decide
  have hwf9 : cacheWellFormed chain9 2 := by
    constructor
    · intro h pr hf
      rw [hmap] at hf
      simp only [hfind] at hf
      by_cases h0 : Hash256.zero = h
      · rw [if_pos h0] at hf
        obtain rfl : pair9 = pr := Option.some.inj hf
        exact ⟨by decide, by decide⟩
      · rw [if_neg h0] at hf
        exact absurd hf (by simp)
    · intro h1 h2 p1 p2 hf1 hf2 hne
      rw [hmap] at hf1 hf2
      simp only [hfind] at hf1 hf2
      by_cases he1 : Hash256.zero = h1
      · by_cases he2 : Hash256.zero = h2
        · exact absurd (he1.symm.trans he2) hne
        · rw [if_neg he2] at hf2
          exact absurd hf2 (by simp)
      · rw [if_neg he1] at hf1
        exact absurd hf1 (by simp)
  exact (committee_map_cache_idempotent chain9 2 0 Hash256.zero crystalBad
    hwf9).1 pair9 (by decide)
